import Mathlib

/-!
Shallow embedding of the RCAT statistic execution engine
(src/rcat/runtime/RCAT_stats.py) and proofs about its specified behaviour.

Modelling conventions:
* Python dicts are association lists `List (String × α)`; item lookup and
  item assignment follow Python semantics (assignment replaces an existing
  key or appends a new one, and never raises KeyError).
* Numeric data values are rationals; a NaN / missing value is `Option.none`.
* Fallible code returns `Except String α`, the string naming the Python
  exception raised.
* External collaborators (numpy cos, scipy curve_fit) enter as explicit
  function parameters; pandas timedelta-unit conversion is modelled from its
  documented behaviour.  Division by zero in ℚ is 0 where numpy would give
  NaN; no claim below depends on those values.
-/

namespace RCAT

/-- Python `d[k]` lookup on a dict modelled as an association list. -/
def dictGet {α : Type} (d : List (String × α)) (k : String) : Option α :=
  (d.find? (fun p => p.1 == k)).map Prod.snd

/-- Python `d[k] = v` item assignment: replace the value of an existing key,
otherwise append the new key.  This operation never raises `KeyError`. -/
def dictSet {α : Type} (d : List (String × α)) (k : String) (v : α) : List (String × α) :=
  if (d.find? (fun p => p.1 == k)).isSome then
    d.map (fun p => if p.1 == k then (k, v) else p)
  else d ++ [(k, v)]

/-- Heterogeneous Python configuration values appearing in
`default_stats_config`. -/
inductive CVal where
  | vNone
  | vStr (s : String)
  | vInt (n : ℤ)
  | vRat (q : ℚ)
  | vBool (b : Bool)
  | vStrList (l : List String)
  | vIntList (l : List ℤ)
  | vRatList (l : List ℚ)
  deriving DecidableEq

/-- The `stats_dict` table of `default_stats_config` (RCAT_stats.py lines
24-128), entry for entry and key for key in source order. -/
def statsDict : List (String × List (String × CVal)) := [
  ("moments", [
    ("vars", CVal.vStrList []),
    ("moment stat", CVal.vStrList ["D", "mean"]),
    ("resample resolution", CVal.vNone),
    ("pool data", CVal.vBool false),
    ("thr", CVal.vNone),
    ("cond analysis", CVal.vNone),
    ("chunk dimension", CVal.vStr "time")]),
  ("seasonal cycle", [
    ("vars", CVal.vStrList []),
    ("resample resolution", CVal.vNone),
    ("pool data", CVal.vBool false),
    ("stat method", CVal.vStr "mean"),
    ("thr", CVal.vNone),
    ("cond analysis", CVal.vNone),
    ("chunk dimension", CVal.vStr "time")]),
  ("annual cycle", [
    ("vars", CVal.vStrList []),
    ("resample resolution", CVal.vNone),
    ("pool data", CVal.vBool false),
    ("stat method", CVal.vStr "mean"),
    ("thr", CVal.vNone),
    ("cond analysis", CVal.vNone),
    ("chunk dimension", CVal.vStr "time")]),
  ("diurnal cycle", [
    ("vars", CVal.vStrList []),
    ("resample resolution", CVal.vNone),
    ("hours", CVal.vNone),
    ("dcycle stat", CVal.vStr "amount"),
    ("stat method", CVal.vStr "mean"),
    ("method kwargs", CVal.vNone),
    ("thr", CVal.vNone),
    ("cond analysis", CVal.vNone),
    ("pool data", CVal.vBool false),
    ("chunk dimension", CVal.vStr "space")]),
  ("dcycle harmonic", [
    ("vars", CVal.vStrList []),
    ("resample resolution", CVal.vNone),
    ("pool data", CVal.vBool false),
    ("dcycle stat", CVal.vStr "amount"),
    ("thr", CVal.vNone),
    ("cond analysis", CVal.vNone),
    ("chunk dimension", CVal.vStr "space")]),
  ("asop", [
    ("vars", CVal.vStrList ["pr"]),
    ("resample resolution", CVal.vNone),
    ("pool data", CVal.vBool false),
    ("nr_bins", CVal.vInt 80),
    ("thr", CVal.vNone),
    ("cond analysis", CVal.vNone),
    ("chunk dimension", CVal.vStr "space")]),
  ("eda", [
    ("vars", CVal.vStrList ["pr"]),
    ("resample resolution", CVal.vNone),
    ("pool data", CVal.vBool false),
    ("duration bins", CVal.vIntList ((List.range' 1 50).map (fun n => (n : ℤ)))),
    ("event statistic", CVal.vStr "amount"),
    ("statistic bins", CVal.vRatList
      [1/10, 1/5, 1/2, 1, 2, 5, 10, 20, 50, 100, 150, 200]),
    ("dry events", CVal.vBool false),
    ("dry bins", CVal.vNone),
    ("event thr", CVal.vRat (1/10)),
    ("cond analysis", CVal.vNone),
    ("chunk dimension", CVal.vStr "space")]),
  ("pdf", [
    ("vars", CVal.vStrList []),
    ("resample resolution", CVal.vNone),
    ("pool data", CVal.vBool false),
    ("bins", CVal.vNone),
    ("normalized", CVal.vBool false),
    ("thr", CVal.vNone),
    ("cond analysis", CVal.vNone),
    ("dry event thr", CVal.vNone),
    ("chunk dimension", CVal.vStr "space")]),
  ("percentile", [
    ("vars", CVal.vStrList []),
    ("resample resolution", CVal.vNone),
    ("pool data", CVal.vBool false),
    ("pctls", CVal.vIntList [95, 99]),
    ("thr", CVal.vNone),
    ("cond analysis", CVal.vNone),
    ("chunk dimension", CVal.vStr "space")]),
  ("Rxx", [
    ("vars", CVal.vStrList ["pr"]),
    ("resample resolution", CVal.vNone),
    ("pool data", CVal.vBool false),
    ("normalize", CVal.vBool false),
    ("thr", CVal.vRat 1),
    ("cond analysis", CVal.vNone),
    ("chunk dimension", CVal.vStr "space")]),
  ("signal filtering", [
    ("vars", CVal.vStrList []),
    ("resample resolution", CVal.vNone),
    ("pool data", CVal.vBool false),
    ("filter", CVal.vStr "lanczos"),
    ("cutoff type", CVal.vStr "lowpass"),
    ("window", CVal.vInt 61),
    ("mode", CVal.vStr "same"),
    ("1st cutoff", CVal.vNone),
    ("2nd cutoff", CVal.vNone),
    ("filter dim", CVal.vInt 1),
    ("thr", CVal.vNone),
    ("cond analysis", CVal.vNone),
    ("chunk dimension", CVal.vStr "space")])]

/-- `default_stats_config`: the sub-dictionary of `statsDict` restricted to
the requested statistics.  A requested statistic missing from the table
raises `KeyError` (modelled as `Option.none`). -/
def default_stats_config (stats : List String) :
    Option (List (String × List (String × CVal))) :=
  stats.mapM (fun k => (dictGet statsDict k).map (fun v => (k, v)))

/-- A caller's per-statistic request: the literal string `default`, or a
dict of override key/value pairs. -/
inductive StatRequest where
  | useDefault
  | overrides (m : List (String × CVal))
  deriving DecidableEq

/-- One override step of `mod_stats_config` (lines 145-153): the Python body
is `try: stats_dd[k][m] = requested_stats[k][m] except KeyError: print(msg)`.
The only lookup that can raise `KeyError` is the outer `stats_dd[k]`; the
inner item assignment always succeeds, inserting key `m` if it is absent.
The second component accumulates printed diagnostics. -/
def modStatsStep (acc : List (String × List (String × CVal)) × List String)
    (k : String) (m : String) (v : CVal) :
    List (String × List (String × CVal)) × List String :=
  match dictGet acc.1 k with
  | Option.none =>
      (acc.1, acc.2 ++ ["For statistic " ++ k ++ ", the configuration key " ++ m ++
        " is not available. Check possible configurations in default_stats_config " ++
        "in stats_template module."])
  | Option.some inner => (dictSet acc.1 k (dictSet inner m v), acc.2)

/-- `mod_stats_config` (lines 133-155): defaults for the requested statistic
names, then each override applied in order.  Returns the final settings
records together with the list of diagnostics printed. -/
def mod_stats_config (requested : List (String × StatRequest)) :
    Option (List (String × List (String × CVal)) × List String) :=
  match default_stats_config (requested.map Prod.fst) with
  | Option.none => Option.none
  | Option.some dd0 =>
    Option.some (requested.foldl
      (fun acc kr =>
        match kr.2 with
        | StatRequest.useDefault => acc
        | StatRequest.overrides m =>
            m.foldl (fun acc2 kv => modStatsStep acc2 kr.1 kv.1 kv.2) acc)
      (dd0, []))

/-! ### Percentile kernel and dataset-level masking (C2) -/

/-- Dataset-level `data.where(data[var] >= thr)` (e.g. line 233): a NEW
derived array in which entries below the threshold become missing.  numpy
comparisons with NaN are false, so missing entries stay missing. -/
def where_ge (t : ℚ) (arr : List (Option ℚ)) : List (Option ℚ) :=
  arr.map (fun x => x.bind (fun v => if t ≤ v then Option.some v else Option.none))

/-- `_percentile_func` (lines 746-752) and the state of its argument array
after the call.  The statement `arr[arr < thr] = np.nan` writes into the
caller's array in place, so the post-state is returned explicitly.  Entries
that are already NaN are untouched (`NaN < thr` is false in numpy). -/
def percentile_func_arr_after (arr : List (Option ℚ)) (thr : Option ℚ) :
    List (Option ℚ) :=
  match thr with
  | Option.none => arr
  | Option.some t =>
      arr.map (fun x =>
        match x with
        | Option.some v => if v < t then Option.none else Option.some v
        | Option.none => Option.none)

/-! ### The moments kernel time-resolution path (C3, C6) -/

/-- Digit characters of a token, in order (`[x for x, y in zip(tf, d) if y]`
in `_get_freq`, line 202). -/
def strDigits (tf : String) : List Char :=
  tf.toList.filter Char.isDigit

/-- Non-digit characters of a token, in order (line 203). -/
def strNonDigits (tf : String) : List Char :=
  tf.toList.filter (fun c => !c.isDigit)

/-- Python `int` of a non-empty digit string. -/
def digitsToNat (l : List Char) : ℕ :=
  l.foldl (fun a c => 10 * a + (c.toNat - 48)) 0

/-- `_get_freq` (lines 198-212): split a token such as `1D` or `3H` into its
numeric part and unit part; months/years become 30/365-day multiples and any
quarter unit becomes 90 days.  An all-digit token makes `unit[0]` raise
`IndexError`, and a digit-free token makes `int(reduce(...))` raise. -/
def get_freq (tf : String) : Except String (ℕ × String) :=
  match strDigits tf with
  | [] => Except.error ("TypeError: reduce of empty sequence")
  | ds =>
    let freq := digitsToNat ds
    let unit := String.mk (strNonDigits tf)
    if unit == "M" then Except.ok (freq * 30, "D")
    else if unit == "Y" then Except.ok (freq * 365, "D")
    else
      match strNonDigits tf with
      | [] => Except.error ("IndexError: string index out of range")
      | c :: _ => if c == 'Q' then Except.ok (90, "D") else Except.ok (freq, unit)

/-- The transformation of `mstat[0]` in `moments` (lines 227-228): a
non-integer stat token gets the string `1` prepended before any later use. -/
def momentsStatKey (mstat0 : String) : String :=
  "1" ++ mstat0

/-- Seconds of `pandas.to_timedelta(n, unit)`; modelled from the documented
behaviour of the external pandas collaborator.  An unrecognised unit (such
as `all`) raises `ValueError`, modelled as `Option.none`. -/
def pandasTimedeltaSeconds (n : ℕ) (unit : String) : Option ℚ :=
  if unit == "W" then Option.some (n * 604800)
  else if unit == "D" || unit == "days" || unit == "day" then Option.some (n * 86400)
  else if unit == "H" || unit == "h" || unit == "hr" || unit == "hours" || unit == "hour" then
    Option.some (n * 3600)
  else if unit == "T" || unit == "min" || unit == "minutes" || unit == "minute" || unit == "m" then
    Option.some (n * 60)
  else if unit == "S" || unit == "s" || unit == "sec" || unit == "seconds" || unit == "second" then
    Option.some (n : ℚ)
  else Option.none

/-- Outcome of the time-resolution branch of `moments` (lines 239-255). -/
inductive MomentsPath where
  | reduceAll
  | passThrough
  | resample
  deriving DecidableEq

/-- The time handling of `moments` (lines 227-255) for a string stat token:
prepend `1`, parse the token with `_get_freq`, convert to seconds with
`to_timedelta` (both evaluated BEFORE the `mstat[0] == 'all'` test), then
either reduce over the whole time axis, keep the data as is when the native
step `nsec` is at least the requested step, or resample. -/
def momentsTimePath (mstat0 : String) (nsec : ℚ) : Except String MomentsPath :=
  let m0 := momentsStatKey mstat0
  match get_freq m0 with
  | Except.error e => Except.error e
  | Except.ok (tr, fr) =>
    match pandasTimedeltaSeconds tr fr with
    | Option.none => Except.error ("ValueError: invalid unit abbreviation " ++ fr)
    | Option.some secResample =>
      if m0 == "all" then Except.ok MomentsPath.reduceAll
      else if secResample ≤ nsec then Except.ok MomentsPath.passThrough
      else Except.ok MomentsPath.resample

/-! ### Bin constructions (C5) and the diurnal cycle amount mode (C4) -/

/-- numpy `linspace(a, b, num)` for `num ≥ 2`: `num` evenly spaced points
from `a` to `b` inclusive (line 514 uses `num = 20`). -/
def np_linspace (a b : ℚ) (num : ℕ) : List ℚ :=
  (List.range num).map (fun i : ℕ => a + (i : ℚ) * (b - a) / ((num : ℚ) - 1))

/-- numpy `arange(start, stop, step)`: the arithmetic sequence
`start + i * step` for `0 ≤ i < ⌈(stop - start) / step⌉`. -/
def np_arange (start stop step : ℚ) : List ℚ :=
  (List.range (⌈(stop - start) / step⌉).toNat).map (fun i : ℕ => start + (i : ℚ) * step)

/-- The bin construction of `freq_int_dist` (lines 510-518): the test
`if var not in stat_config[stat]['bins']` raises `TypeError` when the bins
option is `None` (its default value); with a bins mapping, a variable
without an entry gets 20 evenly spaced edges between the data minimum and
maximum, and an entry `(start, stop, step)` is expanded with `np.arange`. -/
def freq_int_dist_bins (binsCfg : Option (List (String × (ℚ × ℚ × ℚ)))) (var : String)
    (dmn dmx : ℚ) : Except String (List ℚ) :=
  match binsCfg with
  | Option.none => Except.error ("TypeError: argument of type NoneType is not iterable")
  | Option.some m =>
    match dictGet m var with
    | Option.none => Except.ok (np_linspace dmn dmx 20)
    | Option.some (a, b, c) => Except.ok (np_arange a b c)

/-- `lbins = bins.size - 1` (line 518): the output bin count of the
PDF statistic. -/
def freq_int_dist_lbins (bins : List ℚ) : ℕ :=
  bins.length - 1

/-- Python substring containment (the `in` operator on strings), checked on
character lists. -/
def listInfixCheck (needle : List Char) : List Char → Bool
  | [] => needle.isEmpty
  | c :: t => needle.isPrefixOf (c :: t) || listInfixCheck needle t

/-- `needle in hay` for Python strings. -/
def strContains (hay needle : String) : Bool :=
  listInfixCheck needle.toList hay.toList

/-- Python `s.partition(sep)[2]`: everything after the first occurrence of
the separator, empty when the separator is absent. -/
def strPartitionAfter (s : String) (sep : Char) : String :=
  match s.toList.dropWhile (fun c => c != sep) with
  | [] => ""
  | _ :: rest => String.mk rest

/-- The percentile-argument parse of `diurnal_cycle` (lines 358-365):
`q = tstat.partition(' ')[2]`; an empty remainder raises `ValueError`; an
all-digit remainder becomes a one-element list; otherwise the remainder is
`eval`-ed, modelled for bracketed list literals of digit tokens, anything
else raising a syntax error. -/
def parsePctlArg (q : String) : Except String (List ℚ) :=
  if q == "" then
    Except.error ("ValueError: Make sure percentile(s) in stat method is given correctly")
  else if q.toList.all Char.isDigit then
    Except.ok [(digitsToNat q.toList : ℚ)]
  else
    match q.toList with
    | '[' :: rest =>
      if rest.getLast? == Option.some ']' then
        let items := (String.mk rest.dropLast).splitOn ", "
        if items.all (fun it => !(it == "") && it.toList.all Char.isDigit) then
          Except.ok (items.map (fun it => (digitsToNat it.toList : ℚ)))
        else Except.error ("SyntaxError: invalid percentile list literal")
      else Except.error ("SyntaxError: invalid percentile list literal")
    | _ => Except.error ("SyntaxError: invalid percentile list literal")

/-- Result value of the amount-mode branch of `diurnal_cycle`
(lines 355-399). -/
inductive DCAmount where
  | pctlsOut (q : List ℚ)
  | pdfOut (bins : List ℚ)
  | reduceOut (method : String)
  deriving DecidableEq

/-- Local-variable state after the amount-mode branch of `diurnal_cycle`:
which of the Python locals `dcycle` and `st_data` the taken sub-branch
bound (`Option.none` models an unbound local). -/
structure DCBranchState where
  dcycle : Option DCAmount
  stData : Option DCAmount

/-- The amount mode of `diurnal_cycle` (lines 355-401 and 415-418).  The
percentile sub-branch (lines 357-375) binds only the local `st_data`; the
pdf and generic sub-branches bind `dcycle`.  Line 415 then evaluates
`dcycle.chunk(...)`, which raises `UnboundLocalError` whenever the local
`dcycle` was never bound. -/
def diurnal_cycle_amount (tstat : String) (methodKwargsBins : Option (ℚ × ℚ × ℚ)) :
    Except String DCAmount :=
  let branch : Except String DCBranchState :=
    if strContains tstat "percentile" then
      match parsePctlArg (strPartitionAfter tstat ' ') with
      | Except.error e => Except.error e
      | Except.ok q =>
          Except.ok { dcycle := Option.none, stData := Option.some (DCAmount.pctlsOut q) }
    else if strContains tstat "pdf" then
      match methodKwargsBins with
      | Option.none => Except.error ("AssertionError: Bins are missing in method kwargs")
      | Option.some (a, b, c) =>
          Except.ok { dcycle := Option.some (DCAmount.pdfOut (np_arange a b c)),
                      stData := Option.none }
    else
      Except.ok { dcycle := Option.some (DCAmount.reduceOut tstat), stData := Option.none }
  match branch with
  | Except.error e => Except.error e
  | Except.ok st =>
    match st.dcycle with
    | Option.none =>
        Except.error ("UnboundLocalError: local variable dcycle referenced before assignment")
    | Option.some d => Except.ok d

/-! ### Frequency-mode diurnal statistics (C8) -/

/-- Per-variable threshold resolution shared by the statistics functions
(e.g. lines 343-351): no `thr` option gives no threshold, and a threshold
mapping without an entry for the variable also gives no threshold. -/
def resolveThr (inThr : Option (List (String × ℚ))) (var : String) : Option ℚ :=
  match inThr with
  | Option.none => Option.none
  | Option.some m => dictGet m var

/-- `data.where(data[var] >= t)` on hour-labelled data: below-threshold
values become missing, time labels are kept. -/
def maskBelowThr (t : ℚ) (data : List (ℕ × Option ℚ)) : List (ℕ × Option ℚ) :=
  data.map (fun p => (p.1, p.2.bind (fun v => if t ≤ v then Option.some v else Option.none)))

/-- `groupby('time.hour').count('time')`: per hour 0-23, the number of
non-missing observations. -/
def groupbyHourCount (data : List (ℕ × Option ℚ)) : List ℕ :=
  (List.range 24).map (fun h => (data.filter (fun p => p.1 == h && p.2.isSome)).length)

/-- `totdays` (lines 408-409): per hour 0-23, the number of time stamps with
that hour, missing or not. -/
def totdaysPerHour (data : List (ℕ × Option ℚ)) : List ℕ :=
  (List.range 24).map (fun h => (data.filter (fun p => p.1 == h)).length)

/-- Output of a frequency-mode diurnal statistic: per-hour exceedance counts
and the per-hour contributing-day counts. -/
structure DCFreqOut where
  counts : List ℕ
  ndaysPerHour : List ℕ
  deriving DecidableEq

/-- The frequency mode of `diurnal_cycle` (lines 343-351 and 403-410):
resolve the threshold and mask the data, assert that a threshold is set
(otherwise `AssertionError` before any result is produced), then count
non-missing observations per hour. -/
def diurnal_cycle_frequency (inThr : Option (List (String × ℚ))) (var : String)
    (data : List (ℕ × Option ℚ)) : Except String DCFreqOut :=
  let thr := resolveThr inThr var
  let data1 := match thr with
    | Option.some t => maskBelowThr t data
    | Option.none => data
  match thr with
  | Option.none =>
      Except.error ("AssertionError: For frequency analysis, a threshold (thr) must be set!")
  | Option.some _ =>
      Except.ok { counts := groupbyHourCount data1, ndaysPerHour := totdaysPerHour data1 }

/-- The frequency mode of `dcycle_harmonic_fit` (lines 433-442 and 448-457):
same threshold resolution and mandatory-threshold assertion; the data is
masked a second time (`data_sub`) before the per-hour counts. -/
def dcycle_harmonic_frequency (inThr : Option (List (String × ℚ))) (var : String)
    (data : List (ℕ × Option ℚ)) : Except String DCFreqOut :=
  let thr := resolveThr inThr var
  let data1 := match thr with
    | Option.some t => maskBelowThr t data
    | Option.none => data
  match thr with
  | Option.none =>
      Except.error ("AssertionError: For frequency analysis, a threshold must be set")
  | Option.some t =>
      let dataSub := maskBelowThr t data1
      Except.ok { counts := groupbyHourCount dataSub, ndaysPerHour := totdaysPerHour dataSub }

/-! ### Harmonic diurnal fit (C7) -/

/-- The combined two-harmonic curve of `_harmonic_linefit` (lines 786-787):
`m + c1 * cos(2 pi t / 24 - p1) + c2 * cos(4 pi t / 24 - p2)`.  The cosine
and pi of the external numpy collaborator are explicit parameters. -/
def harmonic_curve (cosF : ℚ → ℚ) (piQ m c1 p1 c2 p2 t : ℚ) : ℚ :=
  m + c1 * cosF (2 * piQ * t / 24 - p1) + c2 * cosF (4 * piQ * t / 24 - p2)

/-- `_compute` inside `_harmonic_linefit` (lines 776-791).  The two
nonlinear least-squares fits of the external scipy collaborator are explicit
parameters returning `(m, c, p)`; `m` of the first fit is overwritten by the
second, exactly as in the source.  Any missing value short-circuits to the
all-missing 204-vector without consulting the fits. -/
def harmonic_compute (cosF : ℚ → ℚ) (piQ : ℚ)
    (curveFit1 curveFit2 : List ℚ → ℚ × ℚ × ℚ) (data1d : List (Option ℚ)) :
    List (Option ℚ) :=
  if data1d.any Option.isNone then
    List.replicate 204 Option.none
  else
    let vals := data1d.reduceOption
    let f1 := curveFit1 vals
    let c1 := f1.2.1
    let p1 := f1.2.2
    let f2 := curveFit2 vals
    let m := f2.1
    let c2 := f2.2.1
    let p2 := f2.2.2
    let t := np_linspace 0 23 200
    let r := t.map (harmonic_curve cosF piQ m c1 p1 c2 p2)
    ([c1, p1, c2, p2] ++ r).map Option.some

/-! ### Signal filtering (C9) -/

/-- The window check and declared output length of `filtering` (lines
680-682 and 715-718): an even window fails the oddness assertion before
anything else; with mode `valid` (or `None`) the declared filtered-axis
length is `data.time.size - window + 1`, any other mode keeps the input
length.  Arithmetic is over ℤ, as Python ints. -/
def filtering_out_dim (window timeSize : ℤ) (mode : Option String) : Except String ℤ :=
  if window % 2 == 1 then
    Except.ok (if mode == Option.some "valid" || mode == Option.none
      then timeSize - window + 1 else timeSize)
  else Except.error ("AssertionError: Filter window must be odd")

/-! ### The PDF kernel (C10) -/

/-- numpy `digitize(x, bins)` with increasing bins: the number of edges that
are at most `x`. -/
def np_digitize (x : ℚ) (bins : List ℚ) : ℕ :=
  (bins.filter (fun e => e ≤ x)).length

/-- Count of data in histogram bin `i` of `k` bins: half-open except the
last bin, which is closed, following numpy `histogram`. -/
def histCount (indata : List ℚ) (bins : List ℚ) (i k : ℕ) : ℕ :=
  let lo := bins.getD i 0
  let hi := bins.getD (i + 1) 0
  (indata.filter (fun x => decide (lo ≤ x) &&
    (if i + 1 == k then decide (x ≤ hi) else decide (x < hi)))).length

/-- numpy `histogram(indata, bins, density=True)[0]` (line 848): per-bin
count divided by total in-range count times bin width. -/
def np_histogram_density (indata : List ℚ) (bins : List ℚ) : List ℚ :=
  let k := bins.length - 1
  let total : ℕ := ((List.range k).map (fun i => histCount indata bins i k)).sum
  (List.range k).map (fun i =>
    (histCount indata bins i k : ℚ) / ((total : ℚ) * (bins.getD (i + 1) 0 - bins.getD i 0)))

/-- The normalized relative-contribution branch of `_pdf_calc`
(lines 830-845): group data by bin, take per-bin mean (0 for an empty bin)
and occurrence count, turn counts into frequencies, multiply, and normalize
the contribution vector to sum to 1. -/
def pdf_norm_contrib (indata : List ℚ) (bins : List ℚ) : List ℚ :=
  let groups := (List.range' 1 (bins.length - 1)).map
    (fun b => indata.filter (fun x => np_digitize x bins == b))
  let means := groups.map (fun arr => if arr.isEmpty then 0 else arr.sum / (arr.length : ℚ))
  let ocrns := groups.map (fun arr => arr.length)
  let frequency := ocrns.map (fun n : ℕ => (n : ℚ) / ((ocrns.sum : ℕ) : ℚ))
  let C := List.zipWith (fun f mn => f * mn) frequency means
  C.map (fun c => c / C.sum)

/-- `_compute` inside `_pdf_calc` (lines 812-851).  All-missing input yields
the all-missing `lbins + 1` vector; otherwise missing values are dropped,
dry events are counted when a dry-event threshold is set (`None` placeholder
otherwise, kept as the leading slot by `np.hstack`), below-threshold values
are excluded, and the normalized or plain density histogram fills the
remaining `lbins` slots. -/
def pdf_compute (data1d : List (Option ℚ)) (bins : List ℚ) (norm : Bool)
    (thr dryThr : Option ℚ) : List (Option ℚ) :=
  let lbins := bins.length - 1
  if data1d.all Option.isNone then
    List.replicate (lbins + 1) Option.none
  else
    let vals := data1d.reduceOption
    let dryEvents : Option ℚ := match dryThr with
      | Option.some d => Option.some (((vals.filter (fun x => x < d)).length : ℕ) : ℚ)
      | Option.none => Option.none
    let indata := match thr with
      | Option.some t => vals.filter (fun x => t ≤ x)
      | Option.none => vals
    let body := if norm then pdf_norm_contrib indata bins else np_histogram_density indata bins
    dryEvents :: body.map Option.some

/-- Label type of the `bin_edges` coordinate attached by `freq_int_dist`
(line 554): the literal string `dry_events` followed by the numeric edges. -/
inductive BinEdgeLabel where
  | dryEvents
  | edge (q : ℚ)
  deriving DecidableEq

/-- `['dry_events'] + list(bins)` (line 554). -/
def freq_int_dist_bin_edges (bins : List ℚ) : List BinEdgeLabel :=
  BinEdgeLabel.dryEvents :: bins.map BinEdgeLabel.edge

/-! ## Theorems -/

lemma momentsStatKey_ne_all (s : String) : momentsStatKey s ≠ "all" := by
  intro h
  have hd : (momentsStatKey s).data = "all".data := by rw [h]
  rw [momentsStatKey, String.data_append] at hd
  have hd2 : '1' :: s.data = ['a', 'l', 'l'] := hd
  exact absurd (List.head_eq_of_cons_eq hd2) (by decide)

lemma momentsStatKey_beq_all (s : String) : (momentsStatKey s == "all") = false :=
  beq_eq_false_iff_ne.mpr (momentsStatKey_ne_all s)

lemma np_linspace_length (a b : ℚ) (num : ℕ) : (np_linspace a b num).length = num := by
  unfold np_linspace
  rw [List.length_map, List.length_range]

lemma np_arange_length (a b c : ℚ) : (np_arange a b c).length = (⌈(b - a) / c⌉).toNat := by
  unfold np_arange
  rw [List.length_map, List.length_range]

lemma momentsTimePath_eq (mstat0 : String) (nsec secR : ℚ) (tr : ℕ) (fr : String)
    (h1 : get_freq (momentsStatKey mstat0) = Except.ok (tr, fr))
    (h2 : pandasTimedeltaSeconds tr fr = Option.some secR) :
    momentsTimePath mstat0 nsec =
      if secR ≤ nsec then Except.ok MomentsPath.passThrough
      else Except.ok MomentsPath.resample := by
  have hb := momentsStatKey_beq_all mstat0
  simp only [momentsTimePath, h1, h2, hb, Bool.false_eq_true, if_false]

/-- C1: the Configuration Resolver is claimed to emit a diagnostic for every
override key absent from the statistic's default schema and to keep the
unknown key out of the settings record.  Evaluating `mod_stats_config` at
the failing input (statistic `moments`, override key `bogus key`, which is
not in the default schema) shows the code instead inserts the unknown key
into the settings record and prints no diagnostic: the `try/except KeyError`
guards a dict item assignment, which never raises `KeyError`. -/
theorem C1_unknown_key_silently_accepted :
    ((mod_stats_config [("moments", StatRequest.overrides [("bogus key", CVal.vInt 1)])]).map
      (fun r => (r.2, (dictGet r.1 "moments").map (fun inner => dictGet inner "bogus key")))) =
      Option.some ([], Option.some (Option.some (CVal.vInt 1))) ∧
    (dictGet statsDict "moments").map (fun inner => (dictGet inner "bogus key").isSome) =
      Option.some false := by
  exact ⟨rfl, rfl⟩

/-- C2 counterexample: the claim says the caller's input data is unchanged
after every kernel invocation, including an array passed to the percentile
kernel with a threshold set.  For the array `[1, 5]` and threshold 3, the
array after `_percentile_func` is `[NaN, 5]`, not `[1, 5]`: the kernel
mutated its input in place. -/
theorem C2_percentile_kernel_mutates_input :
    percentile_func_arr_after [Option.some 1, Option.some 5] (Option.some 3) ≠
      [Option.some 1, Option.some 5] := by
  decide

/-- C2 (amended): with no threshold the percentile kernel leaves its input
untouched, but with a threshold set it mutates the caller's array in place,
leaving it in exactly the state that dataset-level `where`-masking would
produce as a new array (entries below the threshold replaced by missing). -/
theorem C2_percentile_kernel_masks_in_place (arr : List (Option ℚ)) (t : ℚ) :
    percentile_func_arr_after arr Option.none = arr ∧
    percentile_func_arr_after arr (Option.some t) = where_ge t arr := by
  refine ⟨rfl, ?_⟩
  simp only [percentile_func_arr_after, where_ge]
  apply List.map_congr_left
  intro x _
  cases x with
  | none => rfl
  | some v =>
      by_cases h : v < t
      · simp [Option.bind, h, not_le.mpr h]
      · simp [Option.bind, h, not_lt.mp h]

/-- C3: the claim says an `all` moment statistic reduces the entire time
axis to one value.  In the code, `mstat[0]` first has `1` prepended, so the
`mstat[0] == 'all'` test compares `1all` with `all` and is unreachable for
every token; execution instead reaches `to_timedelta(1, 'all')`, which fails
with an invalid-unit `ValueError` for every native resolution, so the
moments statistic with the `all` moment never produces a reduction. -/
theorem C3_moments_all_never_reduces :
    (∀ s : String, momentsStatKey s ≠ "all") ∧
    momentsStatKey "all" = "1all" ∧
    (∀ nsec : ℚ, momentsTimePath "all" nsec =
      Except.error ("ValueError: invalid unit abbreviation all")) := by
  exact ⟨momentsStatKey_ne_all, rfl, fun nsec => rfl⟩

/-- C4: the claim says the diurnal cycle in amount mode with a percentile
stat method and a well-formed argument succeeds with per-hour percentiles.
Evaluating the amount-mode flow at stat method `percentile 95` shows the
percentile sub-branch parses its argument and binds the local `st_data`,
but never binds the local `dcycle` that line 415 then reads, so the call
raises `UnboundLocalError` instead of returning a result. -/
theorem C4_diurnal_percentile_unbound_local :
    diurnal_cycle_amount "percentile 95" Option.none =
      Except.error ("UnboundLocalError: local variable dcycle referenced before assignment") ∧
    parsePctlArg (strPartitionAfter "percentile 95" ' ') = Except.ok [95] := by
  exact ⟨rfl, rfl⟩

/-- C5 counterexample: the claim says that with the bin specification unset,
including the default configuration where no bins are given at all, bin
edges are derived from the data and the computation does not fail.  With the
default `bins = None` the membership test `var not in None` raises
`TypeError`, so the computation fails. -/
theorem C5_default_bins_config_fails :
    freq_int_dist_bins Option.none "pr" 0 1 =
      Except.error ("TypeError: argument of type NoneType is not iterable") := by
  exact rfl

/-- C5 (amended): when a bin mapping is given but has no entry for the
variable, the edges are 20 evenly spaced values from the data minimum to the
data maximum (hence 19 bins); when the bin specification is `None` (the
default), the computation fails with a `TypeError`; when `(start, stop,
step)` is given for the variable, the edges are the arithmetic sequence from
start up to (excluding) stop with the given step, the edge count is
`ceil((stop - start) / step)`, and the bin count is the edge count minus
one. -/
theorem C5_pdf_bin_construction (m : List (String × (ℚ × ℚ × ℚ))) (var : String)
    (dmn dmx a b c : ℚ) :
    (dictGet m var = Option.none →
      freq_int_dist_bins (Option.some m) var dmn dmx = Except.ok (np_linspace dmn dmx 20) ∧
      (np_linspace dmn dmx 20).length = 20 ∧
      freq_int_dist_lbins (np_linspace dmn dmx 20) = 19) ∧
    (dictGet m var = Option.some (a, b, c) →
      freq_int_dist_bins (Option.some m) var dmn dmx = Except.ok (np_arange a b c) ∧
      (np_arange a b c).length = (⌈(b - a) / c⌉).toNat ∧
      freq_int_dist_lbins (np_arange a b c) = (np_arange a b c).length - 1) ∧
    (freq_int_dist_bins Option.none var dmn dmx =
      Except.error ("TypeError: argument of type NoneType is not iterable")) := by
  refine ⟨fun h => ?_, fun h => ?_, rfl⟩
  · refine ⟨?_, np_linspace_length dmn dmx 20, ?_⟩
    · simp [freq_int_dist_bins, h]
    · rw [freq_int_dist_lbins, np_linspace_length]
  · refine ⟨?_, np_arange_length a b c, rfl⟩
    simp [freq_int_dist_bins, h]

/-- C5 witness: the amended bin-construction theorem evaluated at a concrete
mapping entry `(0, 10, 2)` for variable `pr` yields the five edges
`0, 2, 4, 6, 8` and bin count 4, and at a variable without entry yields 20
edges. -/
theorem C5_pdf_bin_construction_witness :
    freq_int_dist_bins (Option.some [("pr", (0, 10, 2))]) "pr" 0 1 =
      Except.ok (np_arange 0 10 2) ∧
    (np_arange 0 10 2).length = 5 ∧
    (np_linspace 0 1 20).length = 20 := by
  have h := C5_pdf_bin_construction [("pr", (0, 10, 2))] "pr" 0 1 0 10 2
  have h2 := h.2.1 rfl
  have h3 := C5_pdf_bin_construction [] "tas" 0 1 0 10 2
  refine ⟨h2.1, ?_, (h3.1 rfl).2.1⟩
  rw [h2.2.1]
  have hc : (⌈((10 : ℚ) - 0) / 2⌉) = 5 := by norm_num
  rw [hc]
  rfl

/-- C6 counterexample: the claim says that when the requested resample
resolution is coarser than or equal to the native resolution, no resampling
occurs and the data passes through.  For hourly native data (step 3600
seconds) and the requested token `D` (one day, 86400 seconds — strictly
coarser), the code takes the resampling branch, not the pass-through
branch. -/
theorem C6_coarser_request_resamples :
    momentsTimePath "D" 3600 = Except.ok MomentsPath.resample ∧
    (3600 : ℚ) < ((1 : ℕ) : ℚ) * 86400 := by
  have he := momentsTimePath_eq "D" 3600 (((1 : ℕ) : ℚ) * 86400) 1 "D" rfl rfl
  rw [he, if_neg (by push_cast; norm_num)]
  exact ⟨rfl, by push_cast; norm_num⟩

/-- C6 (amended): the moments statistic passes the data through unchanged
(no resampling, apart from threshold masking) exactly when the requested
resample resolution is finer than or equal to the native resolution of the
data (requested step in seconds at most the native step); it resamples
exactly when the requested resolution is strictly coarser. -/
theorem C6_passthrough_iff_requested_finer (mstat0 : String) (nsec secR : ℚ)
    (tr : ℕ) (fr : String)
    (h1 : get_freq (momentsStatKey mstat0) = Except.ok (tr, fr))
    (h2 : pandasTimedeltaSeconds tr fr = Option.some secR) :
    (momentsTimePath mstat0 nsec = Except.ok MomentsPath.passThrough ↔ secR ≤ nsec) ∧
    (momentsTimePath mstat0 nsec = Except.ok MomentsPath.resample ↔ nsec < secR) := by
  have hb := momentsStatKey_beq_all mstat0
  simp only [momentsTimePath, h1, h2, hb]
  by_cases h : secR ≤ nsec
  · simp [h, not_lt.mpr h]
  · simp [h, not_le.mp h]

/-- C6 witness: daily native data (86400-second step) with the default `D`
token (equal resolution) passes through unchanged. -/
theorem C6_passthrough_witness :
    momentsTimePath "D" 86400 = Except.ok MomentsPath.passThrough := by
  have h := C6_passthrough_iff_requested_finer "D" 86400 (1 * 86400) 1 "D" rfl rfl
  exact h.1.mpr (by norm_num)

lemma np_histogram_density_length (indata bins : List ℚ) :
    (np_histogram_density indata bins).length = bins.length - 1 := by
  simp [np_histogram_density]

lemma pdf_norm_contrib_length (indata bins : List ℚ) :
    (pdf_norm_contrib indata bins).length = bins.length - 1 := by
  simp [pdf_norm_contrib]

/-- C7: for every per-pixel invocation of the harmonic fit kernel (over
arbitrary cosine, pi and nonlinear least-squares collaborators), the output
has fixed length 204; an input with at least one missing value yields the
all-missing 204-vector independently of the fit collaborators, so no fit is
attempted; and a complete input yields the four fit parameters
`(c1, p1, c2, p2)` followed by the combined two-harmonic curve evaluated at
the 200 points `linspace(0, 23, 200)` over one day. -/
theorem C7_harmonic_fit_contract (cosF : ℚ → ℚ) (piQ : ℚ)
    (fit1 fit2 : List ℚ → ℚ × ℚ × ℚ) (data1d : List (Option ℚ)) :
    (harmonic_compute cosF piQ fit1 fit2 data1d).length = 204 ∧
    (data1d.any Option.isNone = true →
      harmonic_compute cosF piQ fit1 fit2 data1d = List.replicate 204 Option.none) ∧
    (data1d.any Option.isNone = false →
      harmonic_compute cosF piQ fit1 fit2 data1d =
        ([(fit1 data1d.reduceOption).2.1, (fit1 data1d.reduceOption).2.2,
          (fit2 data1d.reduceOption).2.1, (fit2 data1d.reduceOption).2.2].map Option.some) ++
        (np_linspace 0 23 200).map (fun t => Option.some
          (harmonic_curve cosF piQ (fit2 data1d.reduceOption).1
            (fit1 data1d.reduceOption).2.1 (fit1 data1d.reduceOption).2.2
            (fit2 data1d.reduceOption).2.1 (fit2 data1d.reduceOption).2.2 t))) := by
  cases hm : data1d.any Option.isNone with
  | true =>
      have heq2 : harmonic_compute cosF piQ fit1 fit2 data1d =
          List.replicate 204 Option.none := by
        unfold harmonic_compute
        rw [hm, if_pos rfl]
      refine ⟨?_, fun _ => heq2, fun hf => by simp [hm] at hf⟩
      rw [heq2, List.length_replicate]
  | false =>
      have heq : harmonic_compute cosF piQ fit1 fit2 data1d =
          ([(fit1 data1d.reduceOption).2.1, (fit1 data1d.reduceOption).2.2,
            (fit2 data1d.reduceOption).2.1, (fit2 data1d.reduceOption).2.2].map Option.some) ++
          (np_linspace 0 23 200).map (fun t => Option.some
            (harmonic_curve cosF piQ (fit2 data1d.reduceOption).1
              (fit1 data1d.reduceOption).2.1 (fit1 data1d.reduceOption).2.2
              (fit2 data1d.reduceOption).2.1 (fit2 data1d.reduceOption).2.2 t)) := by
        unfold harmonic_compute
        rw [hm]
        simp only [Bool.false_eq_true, if_false]
        rw [List.map_append, List.map_map]
        rfl
      refine ⟨?_, fun ht => by simp [hm] at ht, fun _ => heq⟩
      rw [heq, List.length_append, List.length_map, List.length_map, np_linspace_length]
      rfl

/-- C7 witness: with concrete collaborator stand-ins, a 24-hour input with
one missing value yields the all-missing 204-vector, and a complete 24-hour
input yields a 204-vector. -/
theorem C7_harmonic_fit_contract_witness :
    harmonic_compute (fun _ => 0) 0 (fun _ => (0, 0, 0)) (fun _ => (0, 0, 0))
        (Option.none :: List.replicate 23 (Option.some 1)) = List.replicate 204 Option.none ∧
    (harmonic_compute (fun _ => 0) 0 (fun _ => (0, 0, 0)) (fun _ => (0, 0, 0))
        (List.replicate 24 (Option.some 1))).length = 204 := by
  exact ⟨(C7_harmonic_fit_contract _ _ _ _ _).2.1 (by decide),
    (C7_harmonic_fit_contract _ _ _ _ _).1⟩

/-- C8: in frequency mode both diurnal statistics assert a resolved
threshold: whenever the threshold option is absent, or the threshold mapping
has no entry for the variable, the resolved threshold is `None` and both the
diurnal cycle and the harmonic diurnal fit fail with an `AssertionError`
before producing any result. -/
theorem C8_frequency_threshold_mandatory (inThr : Option (List (String × ℚ)))
    (var : String) (data : List (ℕ × Option ℚ))
    (h : inThr = Option.none ∨ ∃ m, inThr = Option.some m ∧ dictGet m var = Option.none) :
    diurnal_cycle_frequency inThr var data =
      Except.error ("AssertionError: For frequency analysis, a threshold (thr) must be set!") ∧
    dcycle_harmonic_frequency inThr var data =
      Except.error ("AssertionError: For frequency analysis, a threshold must be set") := by
  have hr : resolveThr inThr var = Option.none := by
    rcases h with h | ⟨m, hm, hv⟩
    · rw [h]; rfl
    · rw [hm]; simpa [resolveThr] using hv
  constructor
  · simp [diurnal_cycle_frequency, hr]
  · simp [dcycle_harmonic_frequency, hr]

/-- C8 witness: with no threshold option the diurnal cycle frequency mode
fails, and with a threshold mapping lacking the variable the harmonic fit
frequency mode fails. -/
theorem C8_frequency_threshold_mandatory_witness :
    diurnal_cycle_frequency Option.none "pr" [] =
      Except.error ("AssertionError: For frequency analysis, a threshold (thr) must be set!") ∧
    dcycle_harmonic_frequency (Option.some [("tas", 1)]) "pr" [] =
      Except.error ("AssertionError: For frequency analysis, a threshold must be set") := by
  exact ⟨(C8_frequency_threshold_mandatory Option.none "pr" [] (Or.inl rfl)).1,
    (C8_frequency_threshold_mandatory (Option.some [("tas", 1)]) "pr" []
      (Or.inr ⟨[("tas", 1)], rfl, rfl⟩)).2⟩

/-- C9: the signal filtering statistic with an odd window and mode `valid`
declares the filtered-axis output length `input_length - window + 1`, and
every even window is rejected with a fatal assertion error. -/
theorem C9_filtering_window_and_length (window timeSize : ℤ) (mode : Option String) :
    (window % 2 = 1 →
      filtering_out_dim window timeSize (Option.some "valid") =
        Except.ok (timeSize - window + 1)) ∧
    (window % 2 = 0 →
      filtering_out_dim window timeSize mode =
        Except.error ("AssertionError: Filter window must be odd")) := by
  constructor
  · intro h
    simp [filtering_out_dim, h]
  · intro h
    simp [filtering_out_dim, h]

/-- C9 witness: window 5 on 10 time steps in mode `valid` declares length 6;
window 4 is rejected. -/
theorem C9_filtering_witness :
    filtering_out_dim 5 10 (Option.some "valid") = Except.ok 6 ∧
    filtering_out_dim 4 10 (Option.some "same") =
      Except.error ("AssertionError: Filter window must be odd") := by
  have h1 := (C9_filtering_window_and_length 5 10 (Option.some "valid")).1 (by decide)
  have h2 := (C9_filtering_window_and_length 4 10 (Option.some "same")).2 (by decide)
  norm_num at h1
  exact ⟨h1, h2⟩

/-- C10: every PDF kernel invocation returns a per-pixel vector of length
bin count plus one, with a leading dry-event slot that is always present:
with no dry-event threshold the slot is a missing placeholder (not a count,
and not dropped); with a dry-event threshold set and any data present it is
the count of non-missing values below that threshold; and the labelled
bin-edge coordinate leads with the `dry_events` entry. -/
theorem C10_pdf_dry_event_slot (data1d : List (Option ℚ)) (bins : List ℚ) (norm : Bool)
    (thr dryThr : Option ℚ) (_hb : bins ≠ []) :
    (pdf_compute data1d bins norm thr dryThr).length = (bins.length - 1) + 1 ∧
    (dryThr = Option.none → data1d.all Option.isNone = false →
      (pdf_compute data1d bins norm thr dryThr).head? = Option.some Option.none) ∧
    (∀ d : ℚ, dryThr = Option.some d → data1d.all Option.isNone = false →
      (pdf_compute data1d bins norm thr dryThr).head? =
        Option.some (Option.some
          (((data1d.reduceOption.filter (fun x => x < d)).length : ℕ) : ℚ))) ∧
    (freq_int_dist_bin_edges bins).head? = Option.some BinEdgeLabel.dryEvents := by
  cases hall : data1d.all Option.isNone with
  | true =>
      refine ⟨?_, fun _ hf => by simp [hall] at hf,
        fun d _ hf => by simp [hall] at hf, rfl⟩
      simp [pdf_compute, hall]
  | false =>
      refine ⟨?_, fun hd _ => ?_, fun d hd _ => ?_, rfl⟩
      · cases norm with
        | true =>
            simp [pdf_compute, hall, pdf_norm_contrib_length, Nat.add_comm]
        | false =>
            simp [pdf_compute, hall, np_histogram_density_length, Nat.add_comm]
      · simp [pdf_compute, hall, hd]
      · simp [pdf_compute, hall, hd]

/-- C10 witness: data `[1, 3]` with bin edges `[0, 2, 4]` and dry-event
threshold 2 yields a 3-slot vector whose leading slot counts the one value
below 2; the bin-edge coordinate leads with the dry-events label. -/
theorem C10_pdf_dry_event_slot_witness :
    (pdf_compute [Option.some 1, Option.some 3] [0, 2, 4] false Option.none
      (Option.some 2)).length = 3 ∧
    (pdf_compute [Option.some 1, Option.some 3] [0, 2, 4] false Option.none
      (Option.some 2)).head? = Option.some (Option.some 1) ∧
    (freq_int_dist_bin_edges [0, 2, 4]).head? = Option.some BinEdgeLabel.dryEvents := by
  have h := C10_pdf_dry_event_slot [Option.some 1, Option.some 3] [0, 2, 4] false
    Option.none (Option.some 2) (by decide)
  refine ⟨h.1, ?_, h.2.2.2⟩
  have h2 := h.2.2.1 2 rfl (by decide)
  rw [h2]
  norm_num

end RCAT
